import Mathlib

/-!
Shallow embedding of `service/app.go` from im6h/go-api-basic: the App
aggregate service (Create / Update / Delete), its audit data shape, its
response assembly, and its transactional store discipline.

Modelling conventions:
* Go machine values: `uuid.UUID` is modelled as `Nat`, `time.Time` as an
  explicit calendar record `GoTime`, strings as `String`.
* Go `error` values are an inductive `GoErr`; the sentinel `pgx.ErrNoRows`
  is a distinguished constructor, and `errs.E(kind, ...)` wrappers are
  constructors carrying the kind, so Go interface equality `err == pgx.ErrNoRows`
  is `GoErr` equality, faithfully false on a wrapped error.
* The SQL layer (`appstore`) is an opaque parameterized-query executor, as
  the service treats it: reads are supplied by an environment, writes act
  on an explicit pending-transaction state (a `DB` of app rows and API-key
  rows) and can have faults injected by the environment.
* Every service operation returns its Go result together with the final
  committed `DB` and an event log of the store calls it made, so rollback
  and ordering properties are statements about the log and the state.
-/

/-- Go `uuid.UUID`, modelled as a natural number; `0` is the zero UUID. -/
abbrev Uuid := Nat

/-- Go `time.Time` restricted to the fields the service constructs and
compares (year, month, day, hour, minute, second, nanosecond, all UTC). -/
structure GoTime where
  year : Int
  month : Int
  day : Int
  hour : Int
  minute : Int
  second : Int
  nsec : Int
deriving DecidableEq, Repr

/-- Left-pad the decimal rendering of a nonnegative `Int` to a width. -/
def padInt (width : Nat) (n : Int) : String :=
  let s := toString n
  String.mk (List.replicate (width - s.length) '0') ++ s

/-- Go `t.Format(time.RFC3339)` for a UTC time. -/
def GoTime.formatRFC3339 (t : GoTime) : String :=
  padInt 4 t.year ++ "-" ++ padInt 2 t.month ++ "-" ++ padInt 2 t.day ++ "T" ++
    padInt 2 t.hour ++ ":" ++ padInt 2 t.minute ++ ":" ++ padInt 2 t.second ++ "Z"

/-- Go `t.String()` for a UTC time (`time.Time.String` layout). -/
def GoTime.timeString (t : GoTime) : String :=
  padInt 4 t.year ++ "-" ++ padInt 2 t.month ++ "-" ++ padInt 2 t.day ++ " " ++
    padInt 2 t.hour ++ ":" ++ padInt 2 t.minute ++ ":" ++ padInt 2 t.second ++ " +0000 UTC"

/-- Go `uuid.NullUUID` as built by `datastore.NewNullUUID`: a UUID plus a
validity flag. `datastore.NewNullUUID(u)` yields `⟨u, true⟩`. -/
structure NullUuid where
  uuid : Uuid
  valid : Bool
deriving DecidableEq, Repr

/-- Modelled from the spec: `datastore.NewNullUUID` wraps a resolved user
UUID as a valid nullable UUID column value. -/
def NewNullUUID (u : Uuid) : NullUuid := ⟨u, true⟩

/-- The error kinds of the `domain/errs` taxonomy the service uses. -/
inductive ErrKind
  | Validation
  | Database
  | Encryption
  | Other
deriving DecidableEq, Repr

/-- Go `error` values flowing through the service. `pgxNoRows` is the
sentinel `pgx.ErrNoRows`; `errsKindMsg`/`errsKindErr` are the results of
`errs.E(kind, string)` / `errs.E(kind, err)` (modelled from the spec:
`errs.E` constructs a new classified error value wrapping its argument, so
a wrapped error is a distinct value from the sentinel it wraps);
`dbFault`/`encFault` are opaque driver and cipher failures. -/
inductive GoErr
  | pgxNoRows
  | errsKindMsg (kind : ErrKind) (msg : String)
  | errsKindErr (kind : ErrKind) (wrapped : GoErr)
  | dbFault (msg : String)
  | encFault (msg : String)
deriving DecidableEq, Repr

/-- The top-level kind of an error value, as the transport boundary would
classify it: only `errs.E`-constructed errors carry a kind. -/
def GoErr.kind : GoErr → ErrKind
  | .errsKindMsg k _ => k
  | .errsKindErr k _ => k
  | _ => .Other

/-- Go `org.Kind`. -/
structure Kind where
  id : Uuid
  externalID : String
  description : String
deriving DecidableEq, Repr

/-- Go `org.Org`. -/
structure Org where
  id : Uuid
  externalID : String
  name : String
  description : String
  kind : Kind
deriving DecidableEq, Repr

/-- The Go zero value of `org.Kind`. -/
def Kind.zero : Kind := ⟨0, "", ""⟩

/-- The Go zero value of `org.Org`. -/
def Org.zero : Org := ⟨0, "", "", "", Kind.zero⟩

/-- Go `person.Profile` (the fields the service reads). -/
structure Profile where
  firstName : String
  lastName : String
deriving DecidableEq, Repr

/-- Go `user.User` (the fields the service reads). -/
structure User where
  id : Uuid
  username : String
  org : Org
  profile : Profile
deriving DecidableEq, Repr

/-- Modelled from the spec: `domain/app`'s `APIKey` — a generated key
exposing the transient plaintext (`key`, Go `Key()`), the encrypted-at-rest
secret (`ciphertext`, Go `Ciphertext()`), and the deactivation date. -/
structure APIKey where
  key : String
  ciphertext : String
  deactivationDate : GoTime
deriving DecidableEq, Repr

/-- Go `app.App`. -/
structure App where
  id : Uuid
  externalID : String
  org : Org
  name : String
  description : String
  apiKeys : List APIKey
deriving DecidableEq, Repr

/-- Go `audit.Audit`: who performed the action, through which app, when. -/
structure Audit where
  app : App
  user : User
  moment : GoTime
deriving DecidableEq, Repr

/-- Go `audit.SimpleAudit`: creation-time and last-update-time audits. -/
structure SimpleAudit where
  first : Audit
  last : Audit
deriving DecidableEq, Repr

/-- Go `appAudit` from `service/app.go`: a domain App with its audit data. -/
structure AppAudit where
  app : App
  simpleAudit : SimpleAudit
deriving DecidableEq, Repr

/-- Go `CreateAppRequest` from `service/app.go`. -/
structure CreateAppRequest where
  name : String
  description : String
deriving DecidableEq, Repr

/-- Go `UpdateAppRequest` from `service/app.go`. -/
structure UpdateAppRequest where
  externalID : String
  name : String
  description : String
deriving DecidableEq, Repr

/-- Go `APIKeyResponse` from `service/app.go`. -/
structure APIKeyResponse where
  key : String
  deactivationDate : String
deriving DecidableEq, Repr

/-- Go `AppResponse` from `service/app.go`. -/
structure AppResponse where
  externalID : String
  name : String
  description : String
  createAppExtlID : String
  createUsername : String
  createUserFirstName : String
  createUserLastName : String
  createDateTime : String
  updateAppExtlID : String
  updateUsername : String
  updateUserFirstName : String
  updateUserLastName : String
  updateDateTime : String
  apiKeys : List APIKeyResponse
deriving DecidableEq, Repr

/-- Go `DeleteResponse` (declared alongside the service; fields per Delete). -/
structure DeleteResponse where
  externalID : String
  deleted : Bool
deriving DecidableEq, Repr

/-- Go `newAPIKeyResponse` from `service/app.go`: plaintext key plus the
string rendering of the deactivation date. -/
def newAPIKeyResponse (key : APIKey) : APIKeyResponse :=
  ⟨key.key, key.deactivationDate.timeString⟩

/-- Go `newAppResponse` from `service/app.go`: response assembly from an
`appAudit`; API keys are mapped through `newAPIKeyResponse`. -/
def newAppResponse (aa : AppAudit) : AppResponse :=
  { externalID := aa.app.externalID
    name := aa.app.name
    description := aa.app.description
    createAppExtlID := aa.simpleAudit.first.app.externalID
    createUsername := aa.simpleAudit.first.user.username
    createUserFirstName := aa.simpleAudit.first.user.profile.firstName
    createUserLastName := aa.simpleAudit.first.user.profile.lastName
    createDateTime := aa.simpleAudit.first.moment.formatRFC3339
    updateAppExtlID := aa.simpleAudit.last.app.externalID
    updateUsername := aa.simpleAudit.last.user.username
    updateUserFirstName := aa.simpleAudit.last.user.profile.firstName
    updateUserLastName := aa.simpleAudit.last.user.profile.lastName
    updateDateTime := aa.simpleAudit.last.moment.formatRFC3339
    apiKeys := aa.app.apiKeys.map newAPIKeyResponse }

/-- Go `appstore.CreateAppParams` as populated by `Create` (lines 114-126). -/
structure CreateAppParams where
  appID : Uuid
  orgID : Uuid
  appExtlID : String
  appName : String
  appDescription : String
  createAppID : Uuid
  createUserID : NullUuid
  createTimestamp : GoTime
  updateAppID : Uuid
  updateUserID : NullUuid
  updateTimestamp : GoTime
deriving DecidableEq, Repr

/-- Go `appstore.CreateAppAPIKeyParams` as populated by `Create`
(lines 148-158): only the ciphertext, the owning app, the deactivation
date and the audit columns. -/
structure CreateAppAPIKeyParams where
  apiKey : String
  appID : Uuid
  deactvDate : GoTime
  createAppID : Uuid
  createUserID : NullUuid
  createTimestamp : GoTime
  updateAppID : Uuid
  updateUserID : NullUuid
  updateTimestamp : GoTime
deriving DecidableEq, Repr

/-- Go `appstore.UpdateAppParams` as populated by `Update` (lines 210-217):
name, description, the update-audit columns and the row key — no
create-audit (First) column is present. -/
structure UpdateAppParams where
  appName : String
  appDescription : String
  updateAppID : Uuid
  updateUserID : NullUuid
  updateTimestamp : GoTime
  appID : Uuid
deriving DecidableEq, Repr

/-- A persisted row of the app table. -/
structure AppRow where
  appID : Uuid
  orgID : Uuid
  appExtlID : String
  appName : String
  appDescription : String
  createAppID : Uuid
  createUserID : NullUuid
  createTimestamp : GoTime
  updateAppID : Uuid
  updateUserID : NullUuid
  updateTimestamp : GoTime
deriving DecidableEq, Repr

/-- The row inserted by the `CreateApp` statement from its parameters. -/
def AppRow.ofCreate (p : CreateAppParams) : AppRow :=
  ⟨p.appID, p.orgID, p.appExtlID, p.appName, p.appDescription,
    p.createAppID, p.createUserID, p.createTimestamp,
    p.updateAppID, p.updateUserID, p.updateTimestamp⟩

/-- The effect of the `UpdateApp` statement on one row: a row whose key
matches gets the new name, description and update-audit columns; every
other column (including org and the create-audit columns) is untouched. -/
def AppRow.applyUpdate (p : UpdateAppParams) (r : AppRow) : AppRow :=
  if r.appID = p.appID then
    { r with appName := p.appName, appDescription := p.appDescription,
             updateAppID := p.updateAppID, updateUserID := p.updateUserID,
             updateTimestamp := p.updateTimestamp }
  else r

/-- The transactional store state: the app table and the app API-key
table (the only tables the service writes). -/
structure DB where
  appRows : List AppRow
  keyRows : List CreateAppAPIKeyParams
deriving DecidableEq, Repr

/-- Store events, in the order the service issues them. -/
inductive Ev
  | beginTx
  | createApp (p : CreateAppParams)
  | createAppAPIKey (p : CreateAppAPIKeyParams)
  | updateApp (p : UpdateAppParams)
  | deleteAppAPIKeys (appID : Uuid)
  | deleteApp (appID : Uuid)
  | rollbackTx
  | commitTx
deriving DecidableEq, Repr

/-- Outcome of one service call: the Go return value, the committed
database afterward, and the log of store events the call issued. -/
structure CallOut (α : Type) where
  res : Except GoErr α
  db : DB
  log : List Ev
deriving Repr

/-- Fault injection for a single-row insert: `none` lets the insert
succeed normally (row staged, 1 row affected); `some (.error e)` makes
the statement fail with `e`; `some (.ok n)` makes it report `n` rows
affected. -/
abbrev WriteFault := Option (Except GoErr Int)

/-- Environment for one `Create` call: the values drawn from the UUID and
secure-identifier generators, the outcome of API-key generation (plaintext
and ciphertext on success), and fault injection for each store call. -/
structure CreateEnv where
  newUUID : Uuid
  newExternalID : String
  keyGen : Except GoErr (String × String)
  beginTxErr : Option GoErr
  createAppFault : WriteFault
  createKeyFaults : List WriteFault
  commitErr : Option GoErr
deriving Repr

/-- Modelled from the spec: `domain/app`'s `App.AddNewKey` draws a random
plaintext from the generator, encrypts it with the symmetric key, and
appends the resulting APIKey to the App; it propagates the generator or
cipher error on failure. The generator and cipher are summarized by the
environment's `keyGen` outcome. -/
def App.addNewKey (a : App) (gen : Except GoErr (String × String))
    (deactv : GoTime) : Except GoErr App :=
  match gen with
  | .error e => .error e
  | .ok (plain, cipher) =>
      .ok { a with apiKeys := a.apiKeys ++ [⟨plain, cipher, deactv⟩] }

/-- One iteration effect of the `CreateAppAPIKey` insert under a fault:
the result reported to the service and the pending transaction state. -/
def createKeyStep (p : CreateAppAPIKeyParams) (fault : WriteFault) (tx : DB) :
    Except GoErr Int × DB :=
  match fault with
  | none => (.ok 1, { tx with keyRows := tx.keyRows ++ [p] })
  | some (.error e) => (.error e, tx)
  | some (.ok n) => (.ok n, { tx with keyRows := tx.keyRows ++ [p] })

/-- The `for _, key := range a.APIKeys` insert loop of `Create`
(lines 146-171): inserts one row per key, checking each call's error and
rows-affected count; on failure it reports the wrapped Database error
(after rollback, which the caller performs by discarding the pending
state). Returns either the failure (error plus events of this loop) or
the final pending state (plus events). -/
def createKeysLoop (adt : Audit) (appID : Uuid) :
    List APIKey → List WriteFault → DB →
    (GoErr × List Ev) ⊕ (DB × List Ev)
  | [], _, tx => .inr (tx, [])
  | k :: ks, faults, tx =>
      let p : CreateAppAPIKeyParams :=
        { apiKey := k.ciphertext
          appID := appID
          deactvDate := k.deactivationDate
          createAppID := adt.app.id
          createUserID := NewNullUUID adt.user.id
          createTimestamp := adt.moment
          updateAppID := adt.app.id
          updateUserID := NewNullUUID adt.user.id
          updateTimestamp := adt.moment }
      let (res, tx1) := createKeyStep p (faults.headD none) tx
      match res with
      | .error e =>
          .inl (.errsKindErr .Database e, [.createAppAPIKey p, .rollbackTx])
      | .ok n =>
          if n ≠ 1 then
            .inl (.errsKindMsg .Database
                    ("rows affected should be 1, actual: " ++ toString n),
                  [.createAppAPIKey p, .rollbackTx])
          else
            match createKeysLoop adt appID ks faults.tail tx1 with
            | .inl (e, evs) => .inl (e, .createAppAPIKey p :: evs)
            | .inr (tx2, evs) => .inr (tx2, .createAppAPIKey p :: evs)

/-- Go `AppService.Create` from `service/app.go` (lines 97-180). The app is
assembled from fresh identifiers, the Org inherited from the audit
context and the request's name/description; one API key is generated;
then, in one transaction, the app row and one row per key are inserted
with exactly-one-row checks, rolling back on any failure; commit; the
response carries `SimpleAudit` with `First = Last =` the audit context. -/
def AppService.create (db : DB) (env : CreateEnv) (r : CreateAppRequest)
    (adt : Audit) : CallOut AppResponse :=
  let a0 : App :=
    { id := env.newUUID
      externalID := env.newExternalID
      org := adt.app.org
      name := r.name
      description := r.description
      apiKeys := [] }
  let keyDeactivation : GoTime := ⟨2099, 12, 31, 0, 0, 0, 0⟩
  match a0.addNewKey env.keyGen keyDeactivation with
  | .error e => ⟨.error e, db, []⟩
  | .ok a =>
    let createAppParams : CreateAppParams :=
      { appID := a.id
        orgID := a.org.id
        appExtlID := a.externalID
        appName := a.name
        appDescription := a.description
        createAppID := adt.app.id
        createUserID := NewNullUUID adt.user.id
        createTimestamp := adt.moment
        updateAppID := adt.app.id
        updateUserID := NewNullUUID adt.user.id
        updateTimestamp := adt.moment }
    match env.beginTxErr with
    | some e => ⟨.error e, db, []⟩
    | none =>
      let tx0 : DB := db
      let (caRes, tx1) :=
        match env.createAppFault with
        | none => (Except.ok (1 : Int),
                   { tx0 with appRows := tx0.appRows ++ [AppRow.ofCreate createAppParams] })
        | some (.error e) => (Except.error e, tx0)
        | some (.ok n) => (Except.ok n,
                   { tx0 with appRows := tx0.appRows ++ [AppRow.ofCreate createAppParams] })
      match caRes with
      | .error e =>
          ⟨.error (.errsKindErr .Database e), db,
            [.beginTx, .createApp createAppParams, .rollbackTx]⟩
      | .ok n =>
        if n ≠ 1 then
          ⟨.error (.errsKindMsg .Database
              ("rows affected should be 1, actual: " ++ toString n)), db,
            [.beginTx, .createApp createAppParams, .rollbackTx]⟩
        else
          match createKeysLoop adt a.id a.apiKeys env.createKeyFaults tx1 with
          | .inl (e, evs) =>
              ⟨.error e, db, .beginTx :: .createApp createAppParams :: evs⟩
          | .inr (tx2, evs) =>
              match env.commitErr with
              | some e =>
                  ⟨.error e, db, .beginTx :: .createApp createAppParams :: evs⟩
              | none =>
                  ⟨.ok (newAppResponse
                          ⟨a, ⟨adt, adt⟩⟩), tx2,
                    .beginTx :: .createApp createAppParams :: (evs ++ [.commitTx])⟩

/-- Go `appstore.FindAppByExternalIDRow`: the columns `findAppByExternalID`
hydrates (lines 306-323). -/
structure FindAppByExternalIDRow where
  appID : Uuid
  appExtlID : String
  orgID : Uuid
  orgExtlID : String
  orgName : String
  orgDescription : String
  orgKindID : Uuid
  orgKindExtlID : String
  orgKindDesc : String
  appName : String
  appDescription : String
deriving DecidableEq, Repr

/-- Go `appstore.FindAppByExternalIDWithAuditRow`: the columns of the wide
audit lookup that `findAppByExternalIDWithAudit` hydrates (lines 341-401). -/
structure FindAppByExternalIDWithAuditRow where
  appID : Uuid
  appExtlID : String
  orgID : Uuid
  orgExtlID : String
  orgName : String
  orgDescription : String
  orgKindID : Uuid
  orgKindExtlID : String
  orgKindDesc : String
  appName : String
  appDescription : String
  createAppID : Uuid
  createAppExtlID : String
  createAppOrgID : Uuid
  createAppName : String
  createAppDescription : String
  createUserID : NullUuid
  createUsername : String
  createUserOrgID : Uuid
  createUserFirstName : String
  createUserLastName : String
  createTimestamp : GoTime
  updateAppID : Uuid
  updateAppExtlID : String
  updateAppOrgID : Uuid
  updateAppName : String
  updateAppDescription : String
  updateUserID : NullUuid
  updateUsername : String
  updateUserOrgID : Uuid
  updateUserFirstName : String
  updateUserLastName : String
  updateTimestamp : GoTime
deriving DecidableEq, Repr

/-- Go `findAppByExternalID` from `service/app.go` (lines 300-326): the query
result is supplied by the environment (the SQL layer is opaque); a query
error — including the no-rows sentinel — is wrapped as a Database-kind
error (line 303); on success the App is hydrated with `APIKeys = nil`. -/
def hydrateApp (row : FindAppByExternalIDRow) : App :=
  { id := row.appID
    externalID := row.appExtlID
    org := { id := row.orgID
             externalID := row.orgExtlID
             name := row.orgName
             description := row.orgDescription
             kind := { id := row.orgKindID
                       externalID := row.orgKindExtlID
                       description := row.orgKindDesc } }
    name := row.appName
    description := row.appDescription
    apiKeys := [] }

/-- The error/hydration wrapper of `findAppByExternalID`. -/
def findAppByExternalID (qres : Except GoErr FindAppByExternalIDRow) :
    Except GoErr App :=
  match qres with
  | .error e => .error (.errsKindErr .Database e)
  | .ok row => .ok (hydrateApp row)

/-- Go `findAppByExternalIDWithAudit` from `service/app.go` (lines 330-404):
a query error — including the no-rows sentinel — is wrapped as a
Database-kind error (line 338); on success the App (with `APIKeys = nil`)
and its SimpleAudit are hydrated; the audit sub-apps carry only identity
fields with a bare Org ID. -/
def hydrateAppAudit (row : FindAppByExternalIDWithAuditRow) : AppAudit :=
  { app :=
      { id := row.appID
        externalID := row.appExtlID
        org := { id := row.orgID
                 externalID := row.orgExtlID
                 name := row.orgName
                 description := row.orgDescription
                 kind := { id := row.orgKindID
                           externalID := row.orgKindExtlID
                           description := row.orgKindDesc } }
        name := row.appName
        description := row.appDescription
        apiKeys := [] }
    simpleAudit :=
              { first :=
                  { app := { id := row.createAppID
                             externalID := row.createAppExtlID
                             org := { Org.zero with id := row.createAppOrgID }
                             name := row.createAppName
                             description := row.createAppDescription
                             apiKeys := [] }
                    user := { id := row.createUserID.uuid
                              username := row.createUsername
                              org := { Org.zero with id := row.createUserOrgID }
                              profile := { firstName := row.createUserFirstName
                                           lastName := row.createUserLastName } }
                    moment := row.createTimestamp }
                last :=
                  { app := { id := row.updateAppID
                             externalID := row.updateAppExtlID
                             org := { Org.zero with id := row.updateAppOrgID }
                             name := row.updateAppName
                             description := row.updateAppDescription
                             apiKeys := [] }
                    user := { id := row.updateUserID.uuid
                              username := row.updateUsername
                              org := { Org.zero with id := row.updateUserOrgID }
                              profile := { firstName := row.updateUserFirstName
                                           lastName := row.updateUserLastName } }
                    moment := row.updateTimestamp } } }

/-- The error/hydration wrapper of `findAppByExternalIDWithAudit`. -/
def findAppByExternalIDWithAudit
    (qres : Except GoErr FindAppByExternalIDWithAuditRow) :
    Except GoErr AppAudit :=
  match qres with
  | .error e => .error (.errsKindErr .Database e)
  | .ok row => .ok (hydrateAppAudit row)

/-- Environment for one `Update` call: the wide audit lookup result, then
fault injection for the transaction calls. The `UpdateApp` statement
itself acts on the store state (rows affected is the number of matching
rows) unless a driver error is injected. -/
structure UpdateEnv where
  findRes : Except GoErr FindAppByExternalIDWithAuditRow
  beginTxErr : Option GoErr
  updateAppErr : Option GoErr
  commitErr : Option GoErr
deriving Repr

/-- Go `AppService.Update` from `service/app.go` (lines 190-243). Looks up
the App with audit by external ID; a `pgx.ErrNoRows` comparison guards
the Validation branch (line 198); overwrites `Last` with the new audit
context and name/description from the request; updates the row in one
transaction requiring exactly one affected row; commits and returns the
hydrated response. -/
def AppService.update (db : DB) (env : UpdateEnv) (r : UpdateAppRequest)
    (adt : Audit) : CallOut AppResponse :=
  match findAppByExternalIDWithAudit env.findRes with
  | .error err =>
      if err = .pgxNoRows then
        ⟨.error (.errsKindMsg .Validation "No app exists for the given external ID"), db, []⟩
      else
        ⟨.error (.errsKindErr .Database err), db, []⟩
  | .ok aa0 =>
    let aa : AppAudit :=
      { app := { aa0.app with name := r.name, description := r.description }
        simpleAudit := { aa0.simpleAudit with last := adt } }
    let updateAppParams : UpdateAppParams :=
      { appName := aa.app.name
        appDescription := aa.app.description
        updateAppID := adt.app.id
        updateUserID := NewNullUUID adt.user.id
        updateTimestamp := adt.moment
        appID := aa.app.id }
    match env.beginTxErr with
    | some e => ⟨.error e, db, []⟩
    | none =>
      let tx0 : DB := db
      let (uaRes, tx1) :=
        match env.updateAppErr with
        | some e => (Except.error e, tx0)
        | none =>
            (Except.ok ((tx0.appRows.filter
                (fun (row : AppRow) => row.appID = updateAppParams.appID)).length : Int),
             { tx0 with appRows := tx0.appRows.map (AppRow.applyUpdate updateAppParams) })
      match uaRes with
      | .error e =>
          ⟨.error (.errsKindErr .Database e), db,
            [.beginTx, .updateApp updateAppParams, .rollbackTx]⟩
      | .ok n =>
        if n ≠ 1 then
          ⟨.error (.errsKindMsg .Database
              ("rows affected should be 1, actual: " ++ toString n)), db,
            [.beginTx, .updateApp updateAppParams, .rollbackTx]⟩
        else
          match env.commitErr with
          | some e =>
              ⟨.error e, db, [.beginTx, .updateApp updateAppParams]⟩
          | none =>
              ⟨.ok (newAppResponse aa), tx1,
                [.beginTx, .updateApp updateAppParams, .commitTx]⟩

/-- Environment for one `Delete` call: the lookup result, then fault
injection. The two delete statements act on the store state (rows
affected is the number of matching rows) unless a driver error is
injected. -/
structure DeleteEnv where
  findRes : Except GoErr FindAppByExternalIDRow
  beginTxErr : Option GoErr
  deleteKeysErr : Option GoErr
  deleteAppErr : Option GoErr
  commitErr : Option GoErr
deriving Repr

/-- Go `AppService.Delete` from `service/app.go` (lines 246-298). Looks up
the App by external ID (same not-found guard as Update, line 251); in one
transaction deletes all the App's API-key rows requiring at least one
affected row, then deletes the App row requiring exactly one; commits and
returns the delete confirmation. -/
def AppService.delete (db : DB) (env : DeleteEnv) (extlID : String) :
    CallOut DeleteResponse :=
  match findAppByExternalID env.findRes with
  | .error err =>
      if err = .pgxNoRows then
        ⟨.error (.errsKindMsg .Validation "No app exists for the given external ID"), db, []⟩
      else
        ⟨.error (.errsKindErr .Database err), db, []⟩
  | .ok a =>
    match env.beginTxErr with
    | some e => ⟨.error e, db, []⟩
    | none =>
      let tx0 : DB := db
      let (dkRes, tx1) :=
        match env.deleteKeysErr with
        | some e => (Except.error e, tx0)
        | none =>
            (Except.ok ((tx0.keyRows.filter (fun (k : CreateAppAPIKeyParams) => k.appID = a.id)).length : Int),
             { tx0 with keyRows := tx0.keyRows.filter (fun (k : CreateAppAPIKeyParams) => ¬ k.appID = a.id) })
      match dkRes with
      | .error e =>
          ⟨.error (.errsKindErr .Database e), db,
            [.beginTx, .deleteAppAPIKeys a.id, .rollbackTx]⟩
      | .ok apiKeysRowsAffected =>
        if apiKeysRowsAffected < 1 then
          ⟨.error (.errsKindMsg .Database
              ("rows affected should be at least 1, actual: " ++ toString apiKeysRowsAffected)), db,
            [.beginTx, .deleteAppAPIKeys a.id, .rollbackTx]⟩
        else
          let (daRes, tx2) :=
            match env.deleteAppErr with
            | some e => (Except.error e, tx1)
            | none =>
                (Except.ok ((tx1.appRows.filter (fun (row : AppRow) => row.appID = a.id)).length : Int),
                 { tx1 with appRows := tx1.appRows.filter (fun (row : AppRow) => ¬ row.appID = a.id) })
          match daRes with
          | .error e =>
              ⟨.error (.errsKindErr .Database e), db,
                [.beginTx, .deleteAppAPIKeys a.id, .deleteApp a.id, .rollbackTx]⟩
          | .ok rowsAffected =>
            if rowsAffected ≠ 1 then
              ⟨.error (.errsKindMsg .Database
                  ("rows affected should be 1, actual: " ++ toString rowsAffected)), db,
                [.beginTx, .deleteAppAPIKeys a.id, .deleteApp a.id, .rollbackTx]⟩
            else
              match env.commitErr with
              | some e =>
                  ⟨.error e, db, [.beginTx, .deleteAppAPIKeys a.id, .deleteApp a.id]⟩
              | none =>
                  ⟨.ok ⟨extlID, true⟩, tx2,
                    [.beginTx, .deleteAppAPIKeys a.id, .deleteApp a.id, .commitTx]⟩

/-- Sample org kind for concrete instantiations. -/
def sampleKind : Kind := ⟨11, "k-ext", "kind desc"⟩

/-- Sample org for concrete instantiations. -/
def sampleOrg : Org := ⟨10, "org-x", "OrgName", "org desc", sampleKind⟩

/-- Sample calling app (the app of the audit context). -/
def sampleCallerApp : App := ⟨5, "caller-app", sampleOrg, "Caller", "caller app", []⟩

/-- Sample acting user. -/
def sampleUser : User := ⟨6, "alice", sampleOrg, ⟨"Alice", "Smith"⟩⟩

/-- Sample creation moment. -/
def sampleMoment : GoTime := ⟨2026, 1, 2, 3, 4, 5, 0⟩

/-- Sample audit context for Create. -/
def sampleAudit : Audit := ⟨sampleCallerApp, sampleUser, sampleMoment⟩

/-- Sample later moment. -/
def sampleMoment2 : GoTime := ⟨2026, 2, 3, 4, 5, 6, 0⟩

/-- Sample audit context for Update (same caller, later moment). -/
def sampleAudit2 : Audit := ⟨sampleCallerApp, sampleUser, sampleMoment2⟩

/-- Empty store. -/
def sampleDB : DB := ⟨[], []⟩

/-- Fault-free Create environment drawing app id 100. -/
def sampleCreateEnv : CreateEnv :=
  ⟨100, "ext-100", .ok ("plain", "cipher"), none, none, [], none⟩

/-- Sample Create request. -/
def sampleCreateRequest : CreateAppRequest := ⟨"Billing", "handles billing"⟩

/-- The store after the sample Create call. -/
def sampleDB1 : DB :=
  (AppService.create sampleDB sampleCreateEnv sampleCreateRequest sampleAudit).db

/-- The wide audit-lookup row for the app created by the sample Create. -/
def sampleFindRow : FindAppByExternalIDWithAuditRow :=
  { appID := 100, appExtlID := "ext-100", orgID := 10, orgExtlID := "org-x"
    orgName := "OrgName", orgDescription := "org desc", orgKindID := 11
    orgKindExtlID := "k-ext", orgKindDesc := "kind desc"
    appName := "Billing", appDescription := "handles billing"
    createAppID := 5, createAppExtlID := "caller-app", createAppOrgID := 10
    createAppName := "Caller", createAppDescription := "caller app"
    createUserID := ⟨6, true⟩, createUsername := "alice", createUserOrgID := 10
    createUserFirstName := "Alice", createUserLastName := "Smith"
    createTimestamp := sampleMoment
    updateAppID := 5, updateAppExtlID := "caller-app", updateAppOrgID := 10
    updateAppName := "Caller", updateAppDescription := "caller app"
    updateUserID := ⟨6, true⟩, updateUsername := "alice", updateUserOrgID := 10
    updateUserFirstName := "Alice", updateUserLastName := "Smith"
    updateTimestamp := sampleMoment }

/-- The narrow lookup row for the app created by the sample Create. -/
def sampleFindRowSmall : FindAppByExternalIDRow :=
  { appID := 100, appExtlID := "ext-100", orgID := 10, orgExtlID := "org-x"
    orgName := "OrgName", orgDescription := "org desc", orgKindID := 11
    orgKindExtlID := "k-ext", orgKindDesc := "kind desc"
    appName := "Billing", appDescription := "handles billing" }

/-- Fault-free Update environment finding the sample row. -/
def sampleUpdateEnv : UpdateEnv := ⟨.ok sampleFindRow, none, none, none⟩

/-- Sample Update request against the created app. -/
def sampleUpdateRequest : UpdateAppRequest := ⟨"ext-100", "Billing API", "handles more billing"⟩

/-- A store holding the sample app row but no API-key rows (the corrupt
state Delete's at-least-one check guards against). -/
def sampleDBNoKeys : DB := ⟨sampleDB1.appRows, []⟩

/-- A write outcome that violates the exactly-one-row contract: either
the statement errored or it reported an affected-row count other than 1. -/
def WriteFails (f : Except GoErr Int) : Prop :=
  ∀ n, f = .ok n → n ≠ 1

/-- The guarded-failure outcome the spec requires of a write failure
inside an open transaction: a Database-kind error is returned, the
committed store is exactly the store from before the call, a rollback was
issued, and no commit was. -/
def RolledBackWithDatabaseErr {α : Type} (out : CallOut α) (db : DB) : Prop :=
  (∃ e, out.res = .error e ∧ e.kind = .Database) ∧
    out.db = db ∧ Ev.rollbackTx ∈ out.log ∧ Ev.commitTx ∉ out.log

/-- C10: if API-key generation (`AddNewKey`) fails during Create, Create
returns that very error with no transaction begun, no store call issued,
and the store unchanged. -/
theorem c10_addnewkey_failure_preempts_all_writes
    (db : DB) (env : CreateEnv) (r : CreateAppRequest) (adt : Audit) (e : GoErr)
    (hkg : env.keyGen = .error e) :
    AppService.create db env r adt = ⟨.error e, db, []⟩ := by
  obtain ⟨nu, ne, kg, bte, caf, ckf, ce⟩ := env
  simp only at hkg
  subst hkg
  simp [AppService.create, App.addNewKey]

/-- Witness for C10 at a concrete failing generator. -/
theorem c10_witness :
    AppService.create sampleDB
        { sampleCreateEnv with keyGen := .error (.encFault "rng down") }
        sampleCreateRequest sampleAudit
      = ⟨.error (.encFault "rng down"), sampleDB, []⟩ :=
  c10_addnewkey_failure_preempts_all_writes sampleDB
    { sampleCreateEnv with keyGen := .error (.encFault "rng down") }
    sampleCreateRequest sampleAudit (.encFault "rng down") rfl

/-- C1: the claim fails on the code. When the lookup hits no rows, the
`findAppByExternalID`/`findAppByExternalIDWithAudit` helpers wrap the
`pgx.ErrNoRows` sentinel into a Database-kind error before returning, so
the `err == pgx.ErrNoRows` comparison in Update (line 198) and Delete
(line 251) is comparing a wrapper against the sentinel and never
succeeds: both operations return a Database-kind error (the doubly
wrapped sentinel), not the Validation error of the dead branch. -/
theorem c1_notfound_yields_database_not_validation :
    (AppService.update sampleDB ⟨.error .pgxNoRows, none, none, none⟩
        ⟨"missing", "n", "d"⟩ sampleAudit).res
      = .error (.errsKindErr .Database (.errsKindErr .Database .pgxNoRows))
    ∧ (AppService.delete sampleDB ⟨.error .pgxNoRows, none, none, none, none⟩
          "missing").res
        = .error (.errsKindErr .Database (.errsKindErr .Database .pgxNoRows))
    ∧ (GoErr.errsKindErr .Database (.errsKindErr .Database .pgxNoRows)).kind = .Database
    ∧ (GoErr.errsKindErr .Database (.errsKindErr .Database .pgxNoRows)).kind ≠ .Validation := by
  refine ⟨rfl, rfl, rfl, by decide⟩

/-- C2: for Create and Update, any insert/update inside the open
transaction that errors or reports an affected-row count other than 1
leads to a rollback before a Database-kind error is returned: the
committed store equals the store from before the call, the log records
the rollback, and no commit happens. The four conjuncts cover the app
insert of Create, the API-key insert of Create, a failing update
statement of Update, and an update statement matching a row count other
than one. -/
theorem c2_write_failure_rolls_back :
    (∀ (db : DB) (env : CreateEnv) (r : CreateAppRequest) (adt : Audit)
        (pc : String × String) (f : Except GoErr Int),
        env.keyGen = .ok pc → env.beginTxErr = none →
        env.createAppFault = some f → WriteFails f →
        RolledBackWithDatabaseErr (AppService.create db env r adt) db)
    ∧ (∀ (db : DB) (env : CreateEnv) (r : CreateAppRequest) (adt : Audit)
        (pc : String × String) (f : Except GoErr Int),
        env.keyGen = .ok pc → env.beginTxErr = none →
        env.createAppFault = none → env.createKeyFaults.headD none = some f →
        WriteFails f →
        RolledBackWithDatabaseErr (AppService.create db env r adt) db)
    ∧ (∀ (db : DB) (env : UpdateEnv) (r : UpdateAppRequest) (adt : Audit)
        (row : FindAppByExternalIDWithAuditRow) (e : GoErr),
        env.findRes = .ok row → env.beginTxErr = none →
        env.updateAppErr = some e →
        RolledBackWithDatabaseErr (AppService.update db env r adt) db)
    ∧ (∀ (db : DB) (env : UpdateEnv) (r : UpdateAppRequest) (adt : Audit)
        (row : FindAppByExternalIDWithAuditRow),
        env.findRes = .ok row → env.beginTxErr = none →
        env.updateAppErr = none →
        ((db.appRows.filter (fun (x : AppRow) => x.appID = row.appID)).length : Int) ≠ 1 →
        RolledBackWithDatabaseErr (AppService.update db env r adt) db) := by
  refine ⟨?_, ?_, ?_, ?_⟩
  · intro db env r adt pc f hkg hbt hcaf hwf
    obtain ⟨nu, ne, kg, bte, caf, ckf, ce⟩ := env
    simp only at hkg hbt hcaf
    subst hkg; subst hbt; subst hcaf
    obtain ⟨plain, cipher⟩ := pc
    rcases f with e | n
    · simp [AppService.create, App.addNewKey, RolledBackWithDatabaseErr, GoErr.kind]
    · have hn : n ≠ 1 := hwf n rfl
      simp [AppService.create, App.addNewKey, RolledBackWithDatabaseErr, GoErr.kind, hn]
  · intro db env r adt pc f hkg hbt hcaf hck hwf
    obtain ⟨nu, ne, kg, bte, caf, ckf, ce⟩ := env
    simp only at hkg hbt hcaf hck
    subst hkg; subst hbt; subst hcaf
    obtain ⟨plain, cipher⟩ := pc
    cases ckf with
    | nil => simp at hck
    | cons f0 rest =>
      simp only [List.headD_cons] at hck
      subst hck
      rcases f with e | n
      · simp [AppService.create, App.addNewKey, createKeysLoop, createKeyStep,
          RolledBackWithDatabaseErr, GoErr.kind]
      · have hn : n ≠ 1 := hwf n rfl
        simp [AppService.create, App.addNewKey, createKeysLoop, createKeyStep,
          RolledBackWithDatabaseErr, GoErr.kind, hn]
  · intro db env r adt row e hfr hbt hue
    obtain ⟨fr, bte, uae, ce⟩ := env
    simp only at hfr hbt hue
    subst hfr; subst hbt; subst hue
    simp [AppService.update, findAppByExternalIDWithAudit,
      RolledBackWithDatabaseErr, GoErr.kind]
  · intro db env r adt row hfr hbt hue hc
    obtain ⟨fr, bte, uae, ce⟩ := env
    simp only at hfr hbt hue
    subst hfr; subst hbt; subst hue
    simp [AppService.update, findAppByExternalIDWithAudit, hydrateAppAudit,
      RolledBackWithDatabaseErr, GoErr.kind, hc]

/-- Witness for C2: a Create whose app insert reports zero affected rows
is rolled back, leaves the store untouched and yields a Database error. -/
theorem c2_witness :
    WriteFails (.ok 0) ∧
      RolledBackWithDatabaseErr
        (AppService.create sampleDB
          { sampleCreateEnv with createAppFault := some (.ok 0) }
          sampleCreateRequest sampleAudit) sampleDB := by
  have hw : WriteFails (.ok 0) := by
    intro n h
    injection h with h2
    omega
  exact ⟨hw, c2_write_failure_rolls_back.1 sampleDB
    { sampleCreateEnv with createAppFault := some (.ok 0) }
    sampleCreateRequest sampleAudit ("plain", "cipher") (.ok 0) rfl rfl rfl hw⟩

/-- C3: on a successful Update, the response's create-audit (First)
fields are exactly the ones read from storage before the write, its
update-audit (Last) fields come from the supplied audit context, the
update statement's parameters consist only of name, description, the
update-audit columns and the row key, and applying that statement leaves
the org column, the create-audit columns, the external ID and the row key
of every stored row unchanged. -/
theorem c3_update_first_immutable_org_preserved
    (db : DB) (env : UpdateEnv) (r : UpdateAppRequest) (adt : Audit)
    (row : FindAppByExternalIDWithAuditRow)
    (hfr : env.findRes = .ok row) (hbt : env.beginTxErr = none)
    (hue : env.updateAppErr = none)
    (hcount : ((db.appRows.filter (fun (x : AppRow) => x.appID = row.appID)).length : Int) = 1)
    (hce : env.commitErr = none) :
    ∃ resp p,
      (AppService.update db env r adt).res = .ok resp ∧
      p = UpdateAppParams.mk r.name r.description adt.app.id
            (NewNullUUID adt.user.id) adt.moment row.appID ∧
      (AppService.update db env r adt).log = [.beginTx, .updateApp p, .commitTx] ∧
      (AppService.update db env r adt).db
        = ⟨db.appRows.map (AppRow.applyUpdate p), db.keyRows⟩ ∧
      (∀ rw : AppRow,
        (AppRow.applyUpdate p rw).orgID = rw.orgID ∧
        (AppRow.applyUpdate p rw).createAppID = rw.createAppID ∧
        (AppRow.applyUpdate p rw).createUserID = rw.createUserID ∧
        (AppRow.applyUpdate p rw).createTimestamp = rw.createTimestamp ∧
        (AppRow.applyUpdate p rw).appExtlID = rw.appExtlID ∧
        (AppRow.applyUpdate p rw).appID = rw.appID) ∧
      resp.createAppExtlID = row.createAppExtlID ∧
      resp.createUsername = row.createUsername ∧
      resp.createUserFirstName = row.createUserFirstName ∧
      resp.createUserLastName = row.createUserLastName ∧
      resp.createDateTime = row.createTimestamp.formatRFC3339 ∧
      resp.updateAppExtlID = adt.app.externalID ∧
      resp.updateUsername = adt.user.username ∧
      resp.updateUserFirstName = adt.user.profile.firstName ∧
      resp.updateUserLastName = adt.user.profile.lastName ∧
      resp.updateDateTime = adt.moment.formatRFC3339 ∧
      resp.name = r.name ∧ resp.description = r.description ∧
      resp.externalID = row.appExtlID := by
  obtain ⟨fr, bte, uae, ce⟩ := env
  simp only at hfr hbt hue hce
  subst hfr; subst hbt; subst hue; subst hce
  have hout : AppService.update db ⟨.ok row, none, none, none⟩ r adt
      = ⟨.ok (newAppResponse
            ⟨{ (hydrateAppAudit row).app with name := r.name, description := r.description },
              ⟨(hydrateAppAudit row).simpleAudit.first, adt⟩⟩),
          ⟨db.appRows.map (AppRow.applyUpdate
              (UpdateAppParams.mk r.name r.description adt.app.id
                (NewNullUUID adt.user.id) adt.moment row.appID)), db.keyRows⟩,
          [.beginTx,
            .updateApp (UpdateAppParams.mk r.name r.description adt.app.id
              (NewNullUUID adt.user.id) adt.moment row.appID),
            .commitTx]⟩ := by
    simp [AppService.update, findAppByExternalIDWithAudit, hydrateAppAudit, hcount]
  refine ⟨newAppResponse
      ⟨{ (hydrateAppAudit row).app with name := r.name, description := r.description },
        ⟨(hydrateAppAudit row).simpleAudit.first, adt⟩⟩,
    UpdateAppParams.mk r.name r.description adt.app.id
      (NewNullUUID adt.user.id) adt.moment row.appID,
    ?_, rfl, ?_, ?_, ?_, ?_, ?_, ?_, ?_, ?_, ?_, ?_, ?_, ?_, ?_, ?_, ?_, ?_⟩
  · rw [hout]
  · rw [hout]
  · rw [hout]
  · intro rw2
    unfold AppRow.applyUpdate
    split <;> simp
  all_goals simp [newAppResponse, hydrateAppAudit]

/-- Witness for C3 on the sample store after the sample Create. -/
theorem c3_witness :
    ((sampleDB1.appRows.filter
        (fun (x : AppRow) => x.appID = sampleFindRow.appID)).length : Int) = 1 ∧
    ∃ resp p,
      (AppService.update sampleDB1 sampleUpdateEnv sampleUpdateRequest sampleAudit2).res
        = .ok resp ∧
      p = UpdateAppParams.mk sampleUpdateRequest.name sampleUpdateRequest.description
            sampleAudit2.app.id (NewNullUUID sampleAudit2.user.id) sampleAudit2.moment
            sampleFindRow.appID ∧
      (AppService.update sampleDB1 sampleUpdateEnv sampleUpdateRequest sampleAudit2).log
        = [.beginTx, .updateApp p, .commitTx] ∧
      (AppService.update sampleDB1 sampleUpdateEnv sampleUpdateRequest sampleAudit2).db
        = ⟨sampleDB1.appRows.map (AppRow.applyUpdate p), sampleDB1.keyRows⟩ ∧
      (∀ rw : AppRow,
        (AppRow.applyUpdate p rw).orgID = rw.orgID ∧
        (AppRow.applyUpdate p rw).createAppID = rw.createAppID ∧
        (AppRow.applyUpdate p rw).createUserID = rw.createUserID ∧
        (AppRow.applyUpdate p rw).createTimestamp = rw.createTimestamp ∧
        (AppRow.applyUpdate p rw).appExtlID = rw.appExtlID ∧
        (AppRow.applyUpdate p rw).appID = rw.appID) ∧
      resp.createAppExtlID = sampleFindRow.createAppExtlID ∧
      resp.createUsername = sampleFindRow.createUsername ∧
      resp.createUserFirstName = sampleFindRow.createUserFirstName ∧
      resp.createUserLastName = sampleFindRow.createUserLastName ∧
      resp.createDateTime = sampleFindRow.createTimestamp.formatRFC3339 ∧
      resp.updateAppExtlID = sampleAudit2.app.externalID ∧
      resp.updateUsername = sampleAudit2.user.username ∧
      resp.updateUserFirstName = sampleAudit2.user.profile.firstName ∧
      resp.updateUserLastName = sampleAudit2.user.profile.lastName ∧
      resp.updateDateTime = sampleAudit2.moment.formatRFC3339 ∧
      resp.name = sampleUpdateRequest.name ∧
      resp.description = sampleUpdateRequest.description ∧
      resp.externalID = sampleFindRow.appExtlID := by
  have hcount : ((sampleDB1.appRows.filter
      (fun (x : AppRow) => x.appID = sampleFindRow.appID)).length : Int) = 1 := by decide
  exact ⟨hcount, c3_update_first_immutable_org_preserved sampleDB1 sampleUpdateEnv
    sampleUpdateRequest sampleAudit2 sampleFindRow rfl rfl rfl hcount rfl⟩

/-- The far-future deactivation sentinel `time.Date(2099, 12, 31, 0, 0, 0, 0, time.UTC)`. -/
def sentinelDeactivation : GoTime := ⟨2099, 12, 31, 0, 0, 0, 0⟩

/-- The App assembled by `Create` before persistence: fresh ids from the
generators, Org inherited from the audit context, name and description
from the request, and the single generated API key. -/
def createdApp (env : CreateEnv) (r : CreateAppRequest) (adt : Audit)
    (plain cipher : String) : App :=
  { id := env.newUUID
    externalID := env.newExternalID
    org := adt.app.org
    name := r.name
    description := r.description
    apiKeys := [⟨plain, cipher, sentinelDeactivation⟩] }

/-- The app-insert parameters `Create` builds (lines 114-126). -/
def createdAppParams (env : CreateEnv) (r : CreateAppRequest) (adt : Audit) :
    CreateAppParams :=
  ⟨env.newUUID, adt.app.org.id, env.newExternalID, r.name, r.description,
    adt.app.id, NewNullUUID adt.user.id, adt.moment,
    adt.app.id, NewNullUUID adt.user.id, adt.moment⟩

/-- The key-insert parameters `Create` builds (lines 148-158). -/
def createdKeyParams (env : CreateEnv) (adt : Audit) (cipher : String) :
    CreateAppAPIKeyParams :=
  ⟨cipher, env.newUUID, sentinelDeactivation,
    adt.app.id, NewNullUUID adt.user.id, adt.moment,
    adt.app.id, NewNullUUID adt.user.id, adt.moment⟩

/-- Characterization of a fault-free `Create`: the exact response, store
and event log. -/
theorem create_success_out
    (db : DB) (env : CreateEnv) (r : CreateAppRequest) (adt : Audit)
    (plain cipher : String)
    (hkg : env.keyGen = .ok (plain, cipher)) (hbt : env.beginTxErr = none)
    (hcaf : env.createAppFault = none)
    (hck : env.createKeyFaults.headD none = none)
    (hce : env.commitErr = none) :
    AppService.create db env r adt =
      ⟨.ok (newAppResponse ⟨createdApp env r adt plain cipher, ⟨adt, adt⟩⟩),
        ⟨db.appRows ++ [AppRow.ofCreate (createdAppParams env r adt)],
          db.keyRows ++ [createdKeyParams env adt cipher]⟩,
        [.beginTx, .createApp (createdAppParams env r adt),
          .createAppAPIKey (createdKeyParams env adt cipher), .commitTx]⟩ := by
  obtain ⟨nu, ne, kg, bte, caf, ckf, ce⟩ := env
  simp only at hkg hbt hcaf hck hce
  subst hkg; subst hbt; subst hcaf; subst hce
  cases ckf with
  | nil =>
      simp [AppService.create, App.addNewKey, createKeysLoop, createKeyStep,
        createdApp, createdAppParams, createdKeyParams, sentinelDeactivation]
  | cons f0 rest =>
      simp only [List.headD_cons] at hck
      subst hck
      simp [AppService.create, App.addNewKey, createKeysLoop, createKeyStep,
        createdApp, createdAppParams, createdKeyParams, sentinelDeactivation]

/-- C4: on a successful Create, the response's create-audit fields equal
its update-audit fields and both come from the supplied audit context,
and the persisted app-row and key-row parameters carry that same audit
context in both their create and update columns. -/
theorem c4_create_first_equals_last_equals_audit
    (db : DB) (env : CreateEnv) (r : CreateAppRequest) (adt : Audit)
    (plain cipher : String)
    (hkg : env.keyGen = .ok (plain, cipher)) (hbt : env.beginTxErr = none)
    (hcaf : env.createAppFault = none)
    (hck : env.createKeyFaults.headD none = none)
    (hce : env.commitErr = none) :
    ∃ resp,
      (AppService.create db env r adt).res = .ok resp ∧
      resp.createAppExtlID = adt.app.externalID ∧
      resp.updateAppExtlID = adt.app.externalID ∧
      resp.createUsername = adt.user.username ∧
      resp.updateUsername = adt.user.username ∧
      resp.createUserFirstName = adt.user.profile.firstName ∧
      resp.updateUserFirstName = adt.user.profile.firstName ∧
      resp.createUserLastName = adt.user.profile.lastName ∧
      resp.updateUserLastName = adt.user.profile.lastName ∧
      resp.createDateTime = adt.moment.formatRFC3339 ∧
      resp.updateDateTime = adt.moment.formatRFC3339 ∧
      (AppService.create db env r adt).log
        = [.beginTx, .createApp (createdAppParams env r adt),
            .createAppAPIKey (createdKeyParams env adt cipher), .commitTx] ∧
      (createdAppParams env r adt).createAppID = adt.app.id ∧
      (createdAppParams env r adt).updateAppID = adt.app.id ∧
      (createdAppParams env r adt).createUserID = NewNullUUID adt.user.id ∧
      (createdAppParams env r adt).updateUserID = NewNullUUID adt.user.id ∧
      (createdAppParams env r adt).createTimestamp = adt.moment ∧
      (createdAppParams env r adt).updateTimestamp = adt.moment ∧
      (createdKeyParams env adt cipher).createAppID = adt.app.id ∧
      (createdKeyParams env adt cipher).updateAppID = adt.app.id ∧
      (createdKeyParams env adt cipher).createUserID = NewNullUUID adt.user.id ∧
      (createdKeyParams env adt cipher).updateUserID = NewNullUUID adt.user.id ∧
      (createdKeyParams env adt cipher).createTimestamp = adt.moment ∧
      (createdKeyParams env adt cipher).updateTimestamp = adt.moment ∧
      (AppService.create db env r adt).db
        = ⟨db.appRows ++ [AppRow.ofCreate (createdAppParams env r adt)],
            db.keyRows ++ [createdKeyParams env adt cipher]⟩ := by
  have hout := create_success_out db env r adt plain cipher hkg hbt hcaf hck hce
  refine ⟨newAppResponse ⟨createdApp env r adt plain cipher, ⟨adt, adt⟩⟩,
    ?_, ?_, ?_, ?_, ?_, ?_, ?_, ?_, ?_, ?_, ?_, ?_, ?_, ?_, ?_, ?_, ?_, ?_,
    ?_, ?_, ?_, ?_, ?_, ?_, ?_⟩
  · rw [hout]
  · simp [newAppResponse]
  · simp [newAppResponse]
  · simp [newAppResponse]
  · simp [newAppResponse]
  · simp [newAppResponse]
  · simp [newAppResponse]
  · simp [newAppResponse]
  · simp [newAppResponse]
  · simp [newAppResponse]
  · simp [newAppResponse]
  · rw [hout]
  all_goals first
    | rfl
    | rw [hout]

/-- Witness for C4 on the sample Create. -/
theorem c4_witness :
    ∃ resp,
      (AppService.create sampleDB sampleCreateEnv sampleCreateRequest sampleAudit).res
        = .ok resp ∧
      resp.createAppExtlID = sampleAudit.app.externalID ∧
      resp.updateAppExtlID = sampleAudit.app.externalID ∧
      resp.createUsername = sampleAudit.user.username ∧
      resp.updateUsername = sampleAudit.user.username ∧
      resp.createUserFirstName = sampleAudit.user.profile.firstName ∧
      resp.updateUserFirstName = sampleAudit.user.profile.firstName ∧
      resp.createUserLastName = sampleAudit.user.profile.lastName ∧
      resp.updateUserLastName = sampleAudit.user.profile.lastName ∧
      resp.createDateTime = sampleAudit.moment.formatRFC3339 ∧
      resp.updateDateTime = sampleAudit.moment.formatRFC3339 ∧
      (AppService.create sampleDB sampleCreateEnv sampleCreateRequest sampleAudit).log
        = [.beginTx, .createApp (createdAppParams sampleCreateEnv sampleCreateRequest sampleAudit),
            .createAppAPIKey (createdKeyParams sampleCreateEnv sampleAudit "cipher"), .commitTx] ∧
      (createdAppParams sampleCreateEnv sampleCreateRequest sampleAudit).createAppID = sampleAudit.app.id ∧
      (createdAppParams sampleCreateEnv sampleCreateRequest sampleAudit).updateAppID = sampleAudit.app.id ∧
      (createdAppParams sampleCreateEnv sampleCreateRequest sampleAudit).createUserID = NewNullUUID sampleAudit.user.id ∧
      (createdAppParams sampleCreateEnv sampleCreateRequest sampleAudit).updateUserID = NewNullUUID sampleAudit.user.id ∧
      (createdAppParams sampleCreateEnv sampleCreateRequest sampleAudit).createTimestamp = sampleAudit.moment ∧
      (createdAppParams sampleCreateEnv sampleCreateRequest sampleAudit).updateTimestamp = sampleAudit.moment ∧
      (createdKeyParams sampleCreateEnv sampleAudit "cipher").createAppID = sampleAudit.app.id ∧
      (createdKeyParams sampleCreateEnv sampleAudit "cipher").updateAppID = sampleAudit.app.id ∧
      (createdKeyParams sampleCreateEnv sampleAudit "cipher").createUserID = NewNullUUID sampleAudit.user.id ∧
      (createdKeyParams sampleCreateEnv sampleAudit "cipher").updateUserID = NewNullUUID sampleAudit.user.id ∧
      (createdKeyParams sampleCreateEnv sampleAudit "cipher").createTimestamp = sampleAudit.moment ∧
      (createdKeyParams sampleCreateEnv sampleAudit "cipher").updateTimestamp = sampleAudit.moment ∧
      (AppService.create sampleDB sampleCreateEnv sampleCreateRequest sampleAudit).db
        = ⟨sampleDB.appRows ++ [AppRow.ofCreate (createdAppParams sampleCreateEnv sampleCreateRequest sampleAudit)],
            sampleDB.keyRows ++ [createdKeyParams sampleCreateEnv sampleAudit "cipher"]⟩ :=
  c4_create_first_equals_last_equals_audit sampleDB sampleCreateEnv
    sampleCreateRequest sampleAudit "plain" "cipher" rfl rfl rfl rfl rfl

/-- C7: Create takes the new App's Org from the audit context's App,
allocates the internal ID from the UUID generator and the external
identifier from the secure-identifier generator, and — since the request
carries only a name and a description — no request field can influence
the Org: for every request the insert parameters carry the same org,
internal ID and external ID. -/
theorem c7_create_org_inherited_ids_fresh
    (db : DB) (env : CreateEnv) (r : CreateAppRequest) (adt : Audit)
    (plain cipher : String)
    (hkg : env.keyGen = .ok (plain, cipher)) (hbt : env.beginTxErr = none)
    (hcaf : env.createAppFault = none)
    (hck : env.createKeyFaults.headD none = none)
    (hce : env.commitErr = none) :
    (AppService.create db env r adt).log
      = [.beginTx, .createApp (createdAppParams env r adt),
          .createAppAPIKey (createdKeyParams env adt cipher), .commitTx] ∧
    (createdAppParams env r adt).orgID = adt.app.org.id ∧
    (createdAppParams env r adt).appID = env.newUUID ∧
    (createdAppParams env r adt).appExtlID = env.newExternalID ∧
    (∀ r2 : CreateAppRequest,
      (createdAppParams env r2 adt).orgID = adt.app.org.id ∧
      (createdAppParams env r2 adt).appID = env.newUUID ∧
      (createdAppParams env r2 adt).appExtlID = env.newExternalID) ∧
    (∃ resp, (AppService.create db env r adt).res = .ok resp ∧
      resp.externalID = env.newExternalID) := by
  have hout := create_success_out db env r adt plain cipher hkg hbt hcaf hck hce
  refine ⟨?_, rfl, rfl, rfl, fun r2 => ⟨rfl, rfl, rfl⟩,
    ⟨newAppResponse ⟨createdApp env r adt plain cipher, ⟨adt, adt⟩⟩, ?_, rfl⟩⟩
  · rw [hout]
  · rw [hout]

/-- Witness for C7 on the sample Create. -/
theorem c7_witness :
    (AppService.create sampleDB sampleCreateEnv sampleCreateRequest sampleAudit).log
      = [.beginTx, .createApp (createdAppParams sampleCreateEnv sampleCreateRequest sampleAudit),
          .createAppAPIKey (createdKeyParams sampleCreateEnv sampleAudit "cipher"), .commitTx] ∧
    (createdAppParams sampleCreateEnv sampleCreateRequest sampleAudit).orgID = sampleAudit.app.org.id ∧
    (createdAppParams sampleCreateEnv sampleCreateRequest sampleAudit).appID = sampleCreateEnv.newUUID ∧
    (createdAppParams sampleCreateEnv sampleCreateRequest sampleAudit).appExtlID = sampleCreateEnv.newExternalID ∧
    (∀ r2 : CreateAppRequest,
      (createdAppParams sampleCreateEnv r2 sampleAudit).orgID = sampleAudit.app.org.id ∧
      (createdAppParams sampleCreateEnv r2 sampleAudit).appID = sampleCreateEnv.newUUID ∧
      (createdAppParams sampleCreateEnv r2 sampleAudit).appExtlID = sampleCreateEnv.newExternalID) ∧
    (∃ resp, (AppService.create sampleDB sampleCreateEnv sampleCreateRequest sampleAudit).res = .ok resp ∧
      resp.externalID = sampleCreateEnv.newExternalID) :=
  c7_create_org_inherited_ids_fresh sampleDB sampleCreateEnv sampleCreateRequest
    sampleAudit "plain" "cipher" rfl rfl rfl rfl rfl

/-- Recognizer for API-key insert events. -/
def Ev.isKeyInsert : Ev → Bool
  | .createAppAPIKey _ => true
  | _ => false

/-- C8: a successful Create issues exactly one API-key insert, whose
deactivation date is the far-future sentinel 2099-12-31 UTC midnight, and
the response carries exactly that one key with the sentinel date. -/
theorem c8_create_one_key_sentinel_deactivation
    (db : DB) (env : CreateEnv) (r : CreateAppRequest) (adt : Audit)
    (plain cipher : String)
    (hkg : env.keyGen = .ok (plain, cipher)) (hbt : env.beginTxErr = none)
    (hcaf : env.createAppFault = none)
    (hck : env.createKeyFaults.headD none = none)
    (hce : env.commitErr = none) :
    ((AppService.create db env r adt).log.countP
        (fun e => e.isKeyInsert)) = 1 ∧
    (AppService.create db env r adt).log.contains
      (.createAppAPIKey (createdKeyParams env adt cipher)) = true ∧
    (createdKeyParams env adt cipher).deactvDate = ⟨2099, 12, 31, 0, 0, 0, 0⟩ ∧
    (∃ resp, (AppService.create db env r adt).res = .ok resp ∧
      resp.apiKeys = [⟨plain, GoTime.timeString ⟨2099, 12, 31, 0, 0, 0, 0⟩⟩]) := by
  have hout := create_success_out db env r adt plain cipher hkg hbt hcaf hck hce
  refine ⟨?_, ?_, rfl,
    ⟨newAppResponse ⟨createdApp env r adt plain cipher, ⟨adt, adt⟩⟩, ?_, ?_⟩⟩
  · rw [hout]
    simp [List.countP, List.countP.go, Ev.isKeyInsert]
  · rw [hout]
    simp
  · rw [hout]
  · simp [newAppResponse, createdApp, newAPIKeyResponse, sentinelDeactivation]

/-- Witness for C8 on the sample Create. -/
theorem c8_witness :
    ((AppService.create sampleDB sampleCreateEnv sampleCreateRequest sampleAudit).log.countP
        (fun e => e.isKeyInsert)) = 1 ∧
    (AppService.create sampleDB sampleCreateEnv sampleCreateRequest sampleAudit).log.contains
      (.createAppAPIKey (createdKeyParams sampleCreateEnv sampleAudit "cipher")) = true ∧
    (createdKeyParams sampleCreateEnv sampleAudit "cipher").deactvDate = ⟨2099, 12, 31, 0, 0, 0, 0⟩ ∧
    (∃ resp, (AppService.create sampleDB sampleCreateEnv sampleCreateRequest sampleAudit).res = .ok resp ∧
      resp.apiKeys = [⟨"plain", GoTime.timeString ⟨2099, 12, 31, 0, 0, 0, 0⟩⟩]) :=
  c8_create_one_key_sentinel_deactivation sampleDB sampleCreateEnv
    sampleCreateRequest sampleAudit "plain" "cipher" rfl rfl rfl rfl rfl

/-- C5 counterexample: a successful Update against a store in which the
app (internal ID 100) has exactly one stored API-key row returns a
response whose APIKeys list is empty — the wide audit lookup hydrates
`APIKeys = nil` and Update never reads the key table, so the response
does not reflect the previously stored keys. -/
theorem c5_counterexample_stored_key_not_reflected :
    ((AppService.update sampleDB1 sampleUpdateEnv sampleUpdateRequest sampleAudit2).res.map
        (fun resp => resp.apiKeys)) = .ok []
    ∧ (sampleDB1.keyRows.filter
        (fun (k : CreateAppAPIKeyParams) => k.appID = sampleFindRow.appID)).length = 1 := by
  exact ⟨rfl, rfl⟩

/-- C5 amended: on every successful Update the response's APIKeys list is
empty, whatever keys are stored — Update's lookup does not hydrate API
keys. -/
theorem c5_amended_update_response_has_no_keys
    (db : DB) (env : UpdateEnv) (r : UpdateAppRequest) (adt : Audit)
    (resp : AppResponse)
    (hok : (AppService.update db env r adt).res = .ok resp) :
    resp.apiKeys = [] := by
  obtain ⟨fr, bte, uae, ce⟩ := env
  rcases fr with e | row
  · simp only [AppService.update, findAppByExternalIDWithAudit] at hok
    split at hok <;> simp at hok
  · rcases bte with _ | e1
    · rcases uae with _ | e2
      · simp only [AppService.update, findAppByExternalIDWithAudit] at hok
        split at hok
        · simp at hok
        · rcases ce with _ | e3
          · simp only [] at hok
            injection hok with h2
            subst h2
            simp [newAppResponse, hydrateAppAudit]
          · simp at hok
      · simp [AppService.update, findAppByExternalIDWithAudit] at hok
    · simp [AppService.update, findAppByExternalIDWithAudit] at hok

/-- Witness for the amended C5 on the sample store. -/
theorem c5_amended_witness :
    ∃ resp, (AppService.update sampleDB1 sampleUpdateEnv sampleUpdateRequest sampleAudit2).res
        = .ok resp
      ∧ resp.apiKeys = [] := by
  refine ⟨newAppResponse
      ⟨{ (hydrateAppAudit sampleFindRow).app with
          name := sampleUpdateRequest.name,
          description := sampleUpdateRequest.description },
        ⟨(hydrateAppAudit sampleFindRow).simpleAudit.first, sampleAudit2⟩⟩, ?_, ?_⟩
  · rfl
  · exact c5_amended_update_response_has_no_keys sampleDB1 sampleUpdateEnv
      sampleUpdateRequest sampleAudit2 _ rfl

/-- Every Delete log assumes one of five shapes: no store call (lookup
or begin failed), key deletion then rollback, key and app deletion then
rollback, key and app deletion then a failed commit, or key and app
deletion then commit. In every shape that deletes the app row, the key
deletion for the same app precedes it. -/
theorem delete_log_cases (db : DB) (env : DeleteEnv) (extlID : String) :
    (AppService.delete db env extlID).log = [] ∨
    ∃ aid,
      (AppService.delete db env extlID).log
        = [.beginTx, .deleteAppAPIKeys aid, .rollbackTx] ∨
      (AppService.delete db env extlID).log
        = [.beginTx, .deleteAppAPIKeys aid, .deleteApp aid, .rollbackTx] ∨
      (AppService.delete db env extlID).log
        = [.beginTx, .deleteAppAPIKeys aid, .deleteApp aid] ∨
      (AppService.delete db env extlID).log
        = [.beginTx, .deleteAppAPIKeys aid, .deleteApp aid, .commitTx] := by
  obtain ⟨fr, bte, dke, dae, ce⟩ := env
  rcases fr with e | row
  · left
    simp only [AppService.delete, findAppByExternalID]
    split <;> rfl
  · rcases bte with _ | e1
    · rcases dke with _ | e2
      · by_cases hc : ((db.keyRows.filter
            (fun (k : CreateAppAPIKeyParams) => k.appID = (hydrateApp row).id)).length : Int) < 1
        · refine Or.inr ⟨(hydrateApp row).id, Or.inl ?_⟩
          simp [AppService.delete, findAppByExternalID, hc]
        · rcases dae with _ | e3
          · by_cases hd : ((db.appRows.filter
                (fun (x : AppRow) => x.appID = (hydrateApp row).id)).length : Int) = 1
            · rcases ce with _ | e4
              · refine Or.inr ⟨(hydrateApp row).id, Or.inr (Or.inr (Or.inr ?_))⟩
                simp [AppService.delete, findAppByExternalID, hc, hd]
              · refine Or.inr ⟨(hydrateApp row).id, Or.inr (Or.inr (Or.inl ?_))⟩
                simp [AppService.delete, findAppByExternalID, hc, hd]
            · refine Or.inr ⟨(hydrateApp row).id, Or.inr (Or.inl ?_)⟩
              simp [AppService.delete, findAppByExternalID, hc, hd]
          · refine Or.inr ⟨(hydrateApp row).id, Or.inr (Or.inl ?_)⟩
            simp [AppService.delete, findAppByExternalID, hc]
      · refine Or.inr ⟨(hydrateApp row).id, Or.inl ?_⟩
        simp [AppService.delete, findAppByExternalID]
    · left
      simp [AppService.delete, findAppByExternalID]

/-- In a Delete event log, any app-row deletion is preceded by the
deletion of that same app's API-key rows. -/
def KeysBeforeApp (log : List Ev) : Prop :=
  ∀ aid, Ev.deleteApp aid ∈ log →
    ∃ l1 l2, log = l1 ++ Ev.deleteApp aid :: l2 ∧ Ev.deleteAppAPIKeys aid ∈ l1

/-- C6: every Delete deletes the App's API-key rows before the App row
(first conjunct: in every possible log the app-row deletion, if present,
is preceded by the key deletion for the same app); and when the key
deletion affects zero rows the transaction is rolled back with a
Database-kind error, the store is unchanged, and the App row is never
deleted (second conjunct). -/
theorem c6_delete_keys_before_app_and_zero_guard :
    (∀ (db : DB) (env : DeleteEnv) (extlID : String),
        KeysBeforeApp (AppService.delete db env extlID).log)
    ∧ (∀ (db : DB) (env : DeleteEnv) (extlID : String)
          (row : FindAppByExternalIDRow),
        env.findRes = .ok row → env.beginTxErr = none →
        env.deleteKeysErr = none →
        (db.keyRows.filter
          (fun (k : CreateAppAPIKeyParams) => k.appID = row.appID)).length = 0 →
        RolledBackWithDatabaseErr (AppService.delete db env extlID) db ∧
          ∀ aid, Ev.deleteApp aid ∉ (AppService.delete db env extlID).log) := by
  constructor
  · intro db env extlID aid hmem
    rcases delete_log_cases db env extlID with h0 | ⟨aid0, h1 | h2 | h3 | h4⟩
    · rw [h0] at hmem
      simp at hmem
    · rw [h1] at hmem
      simp at hmem
    · rw [h2] at hmem
      simp at hmem
      subst hmem
      exact ⟨[.beginTx, .deleteAppAPIKeys aid], [.rollbackTx], h2, by simp⟩
    · rw [h3] at hmem
      simp at hmem
      subst hmem
      exact ⟨[.beginTx, .deleteAppAPIKeys aid], [], h3, by simp⟩
    · rw [h4] at hmem
      simp at hmem
      subst hmem
      exact ⟨[.beginTx, .deleteAppAPIKeys aid], [.commitTx], h4, by simp⟩
  · intro db env extlID row hfr hbt hdk hz
    obtain ⟨fr, bte, dke, dae, ce⟩ := env
    simp only at hfr hbt hdk
    subst hfr; subst hbt; subst hdk
    constructor
    · simp [AppService.delete, findAppByExternalID, hydrateApp, hz,
        RolledBackWithDatabaseErr, GoErr.kind]
    · intro aid
      simp [AppService.delete, findAppByExternalID, hydrateApp, hz]

/-- Witness for C6: deleting the sample app from a store that has its
app row but no API-key rows rolls back, leaves the store unchanged, and
never deletes the app row. -/
theorem c6_witness :
    (sampleDBNoKeys.keyRows.filter
      (fun (k : CreateAppAPIKeyParams) => k.appID = sampleFindRowSmall.appID)).length = 0 ∧
    (RolledBackWithDatabaseErr
        (AppService.delete sampleDBNoKeys
          ⟨.ok sampleFindRowSmall, none, none, none, none⟩ "ext-100") sampleDBNoKeys ∧
      ∀ aid, Ev.deleteApp aid ∉
        (AppService.delete sampleDBNoKeys
          ⟨.ok sampleFindRowSmall, none, none, none, none⟩ "ext-100").log) :=
  ⟨rfl, c6_delete_keys_before_app_and_zero_guard.2 sampleDBNoKeys
    ⟨.ok sampleFindRowSmall, none, none, none, none⟩ "ext-100" sampleFindRowSmall
    rfl rfl rfl rfl⟩

/-- C9: in every Create call (whatever faults occur), every API-key
insert issued to the store carries exactly the key's ciphertext, the
owning app ID, the deactivation date and the audit columns — never the
plaintext (when plaintext and ciphertext differ, the persisted key column
differs from the plaintext); the plaintext appears only in the response
of a successful call, as its single API key. -/
theorem c9_only_ciphertext_persisted
    (db : DB) (env : CreateEnv) (r : CreateAppRequest) (adt : Audit)
    (plain cipher : String)
    (hkg : env.keyGen = .ok (plain, cipher)) :
    (∀ pk, Ev.createAppAPIKey pk ∈ (AppService.create db env r adt).log →
        pk = createdKeyParams env adt cipher)
    ∧ (∀ resp, (AppService.create db env r adt).res = .ok resp →
        resp.apiKeys = [⟨plain, GoTime.timeString ⟨2099, 12, 31, 0, 0, 0, 0⟩⟩])
    ∧ ((createdKeyParams env adt cipher).apiKey = cipher)
    ∧ (plain ≠ cipher → (createdKeyParams env adt cipher).apiKey ≠ plain) := by
  obtain ⟨nu, ne, kg, bte, caf, ckf, ce⟩ := env
  simp only at hkg
  subst hkg
  refine ⟨?_, ?_, rfl, fun h => Ne.symm h⟩
  · intro pk hmem
    rcases bte with _ | e1 <;>
      rcases caf with _ | (e2 | n) <;>
      rcases ckf with _ | ⟨_ | (e3 | m), rest⟩ <;>
      rcases ce with _ | e4
    all_goals (try by_cases hn : n = 1)
    all_goals (try by_cases hm : m = 1)
    all_goals simp_all [AppService.create, App.addNewKey, createKeysLoop,
      createKeyStep, createdKeyParams, sentinelDeactivation]
  · intro resp hok
    rcases bte with _ | e1 <;>
      rcases caf with _ | (e2 | n) <;>
      rcases ckf with _ | ⟨_ | (e3 | m), rest⟩ <;>
      rcases ce with _ | e4
    all_goals (try by_cases hn : n = 1)
    all_goals (try by_cases hm : m = 1)
    all_goals simp_all [AppService.create, App.addNewKey, createKeysLoop,
      createKeyStep, newAppResponse, newAPIKeyResponse]
    all_goals (subst hok; rfl)

/-- Witness for C9 on the sample Create. -/
theorem c9_witness :
    ((Ev.createAppAPIKey (createdKeyParams sampleCreateEnv sampleAudit "cipher")
        ∈ (AppService.create sampleDB sampleCreateEnv sampleCreateRequest sampleAudit).log) →
      createdKeyParams sampleCreateEnv sampleAudit "cipher"
        = createdKeyParams sampleCreateEnv sampleAudit "cipher")
    ∧ (∀ resp, (AppService.create sampleDB sampleCreateEnv sampleCreateRequest sampleAudit).res
          = .ok resp →
        resp.apiKeys = [⟨"plain", GoTime.timeString ⟨2099, 12, 31, 0, 0, 0, 0⟩⟩])
    ∧ ((createdKeyParams sampleCreateEnv sampleAudit "cipher").apiKey = "cipher")
    ∧ ("plain" ≠ "cipher" →
        (createdKeyParams sampleCreateEnv sampleAudit "cipher").apiKey ≠ "plain") :=
  ⟨fun hm => (c9_only_ciphertext_persisted sampleDB sampleCreateEnv sampleCreateRequest
      sampleAudit "plain" "cipher" rfl).1 _ hm,
    (c9_only_ciphertext_persisted sampleDB sampleCreateEnv sampleCreateRequest
      sampleAudit "plain" "cipher" rfl).2.1,
    (c9_only_ciphertext_persisted sampleDB sampleCreateEnv sampleCreateRequest
      sampleAudit "plain" "cipher" rfl).2.2.1,
    (c9_only_ciphertext_persisted sampleDB sampleCreateEnv sampleCreateRequest
      sampleAudit "plain" "cipher" rfl).2.2.2⟩
